import Mathlib

/-!
Verification development for the Reddit-Dash repository.

The Python sources are shallowly embedded: texts are lists of characters,
Python float arithmetic on the small decimal constants involved is idealized
as exact rational arithmetic (every comparison settled below is bounded away
from the float rounding error), and the VADER lexicon analyzer, an external
library, is treated as an oracle supplying the compound score of a comment
body. Each definition mirrors one function of the repository; the doc
comment names the file and function it embeds.
-/

/-! ## Text utilities (Python str operations) -/

/-- Lowercasing a text, mirroring Python str.lower on the ASCII inputs used
throughout the repository. -/
def lowerText (s : List Char) : List Char := s.map Char.toLower

/-- Boolean test that the first list starts the second. -/
def startsWithB : List Char → List Char → Bool
  | [], _ => true
  | _ :: _, [] => false
  | a :: as, b :: bs => a == b && startsWithB as bs

/-- Boolean substring containment, mirroring the Python expression
needle in hay on strings.  The empty needle is contained in every text. -/
def substrB (n : List Char) : List Char → Bool
  | [] => n.isEmpty
  | h :: t => startsWithB n (h :: t) || substrB n t

/-- Characters removed by Python str.strip (ASCII whitespace). -/
def isSpaceB (c : Char) : Bool :=
  c == ' ' || c == '\t' || c == '\n' || c == '\r' || c == Char.ofNat 11 || c == Char.ofNat 12

/-- Mirrors Python str.strip: removes leading and trailing whitespace. -/
def stripText (s : List Char) : List Char :=
  ((s.dropWhile isSpaceB).reverse.dropWhile isSpaceB).reverse

/-- Mirrors the Python expression " ".join(parts). -/
def joinWithSpace : List (List Char) → List Char
  | [] => []
  | [x] => x
  | x :: xs => x ++ ' ' :: joinWithSpace xs

/-! ## reddit_api_connector.py: per-comment sentiment -/

/-- Input of analyze_comment_sentiment in misc_py_root/reddit_api_connector.py:
the comment body, its upvote score, and the VADER compound score that the
external analyzer assigns to the body (modelled as an oracle input). -/
structure CommentData where
  body : List Char
  score : ℤ
  compound : ℚ
deriving DecidableEq

/-- Result fields of analyze_comment_sentiment that the claims are about
(vader compound, category, confidence, weighted score); the fields
ingredient_specific, comment_length and has_ingredient_mention are not
modelled because no claim mentions them. -/
structure CommentSentiment where
  compound : ℚ
  sentiment_category : String
  confidence : ℚ
  weighted_score : ℚ
deriving DecidableEq

/-- Threshold chain used by reddit_api_connector.py to turn a compound score
into a category: at least 0.05 is positive, at most -0.05 is negative,
otherwise neutral.  The same chain appears verbatim in
analyze_comment_sentiment and in aggregate_post_sentiment. -/
def sentimentCategory (compound : ℚ) : String :=
  if compound ≥ 5 / 100 then "positive"
  else if compound ≤ -(5 / 100) then "negative"
  else "neutral"

/-- Tombstone test of reddit_api_connector.py: the body equals the literal
string [deleted] or [removed]. -/
def tombstoneBody (body : List Char) : Bool :=
  body == "[deleted]".toList || body == "[removed]".toList

/-- Mirrors analyze_comment_sentiment (misc_py_root/reddit_api_connector.py,
VADER-available path): an empty or tombstoned body yields the fixed neutral
result with zero confidence and zero weighted score; otherwise the category
comes from the 0.05 thresholds, confidence is the absolute compound, and the
weighted score is compound times max(score, 1). -/
def analyze_comment_sentiment (c : CommentData) : CommentSentiment :=
  if c.body.isEmpty || tombstoneBody c.body then
    { compound := 0, sentiment_category := "neutral", confidence := 0, weighted_score := 0 }
  else
    { compound := c.compound
      sentiment_category := sentimentCategory c.compound
      confidence := |c.compound|
      weighted_score := c.compound * ((max c.score 1 : ℤ) : ℚ) }

/-- Counts of positive, negative and neutral categories. -/
structure SentimentDistribution where
  positive : ℕ
  negative : ℕ
  neutral : ℕ
deriving DecidableEq

/-- Post-level result fields of aggregate_post_sentiment that the claims are
about; top_sentiment_comments and the ingredient_specific tallies are not
modelled because no claim mentions them. -/
structure PostSentiment where
  overall_sentiment : String
  sentiment_distribution : SentimentDistribution
  weighted_average_compound : ℚ
  sentiment_confidence : ℚ
  total_comments_analyzed : ℕ
deriving DecidableEq

/-- Mirrors aggregate_post_sentiment (misc_py_root/reddit_api_connector.py):
every comment of the list is analyzed (the code caches an existing analysis,
which for the pure embedding is the identity), the distribution counts the
three category strings over all analyzed comments, the weighted average
compound is the sum of the weighted scores divided by the number of
comments, the overall sentiment applies the 0.05 thresholds to that average,
and the confidence is its absolute value.  An empty comment list takes the
early return with a neutral distribution of (0, 0, 1). -/
def aggregate_post_sentiment (comments : List CommentData) : PostSentiment :=
  if comments.isEmpty then
    { overall_sentiment := "neutral"
      sentiment_distribution := ⟨0, 0, 1⟩
      weighted_average_compound := 0
      sentiment_confidence := 0
      total_comments_analyzed := 0 }
  else
    let comment_sentiments := comments.map analyze_comment_sentiment
    let cats := comment_sentiments.map (fun s => s.sentiment_category)
    let total_weight := (comment_sentiments.map (fun s => s.weighted_score)).sum
    let wavg := total_weight / (comment_sentiments.length : ℚ)
    { overall_sentiment := sentimentCategory wavg
      sentiment_distribution := ⟨cats.count "positive", cats.count "negative", cats.count "neutral"⟩
      weighted_average_compound := wavg
      sentiment_confidence := |wavg|
      total_comments_analyzed := comment_sentiments.length }

/-! ## reddit_api_connector.py: fetched comment filter and significance -/

/-- One child object of the Reddit comments listing as consumed by
fetch_post_comments in misc_py_root/reddit_api_connector.py: its kind tag,
body, author and score. -/
structure RawChild where
  kind : String
  body : List Char
  author : List Char
  score : ℤ
deriving DecidableEq

/-- Mirrors the comment_list filter of fetch_post_comments: a child is kept
when its kind is t1 and its body and author fields are truthy (nonempty
strings).  A tombstoned comment, whose body is the nonempty string
[deleted] or [removed], passes this filter. -/
def fetched_comment_list (children : List RawChild) : List RawChild :=
  children.filter (fun c => c.kind == "t1" && !c.body.isEmpty && !c.author.isEmpty)

/-- Mirrors is_significant in fetch_post_comments: the number of kept
comments is at least 5. -/
def is_significant (children : List RawChild) : Bool :=
  decide (5 ≤ (fetched_comment_list children).length)

/-- Modelled from the spec: the count of non-tombstoned comments of a post,
the quantity the spec says is_significant thresholds at 5.  It is the number
of kept comments whose body is not a tombstone; defined for comparison with
the is_significant computed by the code. -/
def specValidCommentCount (children : List RawChild) : ℕ :=
  ((fetched_comment_list children).filter (fun c => !tombstoneBody c.body)).length

/-! ## reddit_api_connector.py: ingredient-level fold -/

/-- Input of calculate_overall_ingredient_sentiment: a post record carrying
the is_significant_for_sentiment flag and, when present, the stored
post_sentiment dict. -/
structure PostRecord where
  is_significant_for_sentiment : Bool
  post_sentiment : Option PostSentiment
deriving DecidableEq

/-- Ingredient-level result fields of calculate_overall_ingredient_sentiment
that the claims are about. -/
structure IngredientSentiment where
  overall_sentiment : String
  sentiment_distribution : SentimentDistribution
  weighted_average_compound : ℚ
  significant_posts_count : ℕ
deriving DecidableEq

/-- Mirrors calculate_overall_ingredient_sentiment
(misc_py_root/reddit_api_connector.py): significant posts are filtered by
their flag, their stored post sentiments are collected, the distribution
counts their overall_sentiment strings, the dominant sentiment is positive
when the positive count strictly exceeds the negative count, negative in
the symmetric case, and neutral otherwise (the neutral count is never
consulted), and the weighted average compound is the mean of the per-post
weighted_average_compound values.  An empty post list, or an empty list of
collected post sentiments, takes the corresponding neutral early branch. -/
def calculate_overall_ingredient_sentiment (all_posts : List PostRecord) : IngredientSentiment :=
  if all_posts.isEmpty then
    { overall_sentiment := "neutral"
      sentiment_distribution := ⟨0, 0, 0⟩
      weighted_average_compound := 0
      significant_posts_count := 0 }
  else
    let significant_posts := all_posts.filter (fun p => p.is_significant_for_sentiment)
    let post_sentiments := significant_posts.filterMap (fun p => p.post_sentiment)
    if post_sentiments.isEmpty then
      { overall_sentiment := "neutral"
        sentiment_distribution := ⟨0, 0, 0⟩
        weighted_average_compound := 0
        significant_posts_count := significant_posts.length }
    else
      let overall_sentiments := post_sentiments.map (fun ps => ps.overall_sentiment)
      let dist : SentimentDistribution :=
        ⟨overall_sentiments.count "positive", overall_sentiments.count "negative",
         overall_sentiments.count "neutral"⟩
      let weighted_compounds := post_sentiments.map (fun ps => ps.weighted_average_compound)
      { overall_sentiment :=
          if dist.positive > dist.negative then "positive"
          else if dist.negative > dist.positive then "negative"
          else "neutral"
        sentiment_distribution := dist
        weighted_average_compound := weighted_compounds.sum / (weighted_compounds.length : ℚ)
        significant_posts_count := significant_posts.length }

/-! ## Minimum sample size (two computation sites) -/

/-- Mirrors the min_sample_size computation in main of
misc_py_root/reddit_api_connector.py: math.ceil(Z^2 * p * (1-p) / e^2) with
Z = 1.96, p = 0.5, e = 0.05.  Python float arithmetic is idealized as exact
rational arithmetic; the exact value 384.16 is far from an integer, so the
float rounding error cannot change the ceiling. -/
def min_sample_size_connector : ℤ :=
  ⌈(196 / 100 : ℚ) ^ 2 * (1 / 2) * (1 - 1 / 2) / (5 / 100) ^ 2⌉

/-- Mirrors the min_sample_size computation in main of
misc_py_root/k18_hair_mask_extractor.py: int(1.96**2 * 0.5 * (1-0.5) /
0.05**2).  Python int() truncates toward zero and the value is positive, so
it is the floor; the same float idealization as above applies. -/
def min_sample_size_k18 : ℤ :=
  ⌊(196 / 100 : ℚ) ^ 2 * (1 / 2) * (1 - 1 / 2) / (5 / 100) ^ 2⌋

/-! ## Rule-based fallback sentiment (shared word lists) -/

/-- Positive word list of the rule-based fallback, shared verbatim by
analyze_comment_sentiment in reddit_api_connector.py and analyze_sentiment
in reddit_ingredient_stats.py. -/
def positive_words : List String :=
  ["good", "great", "love", "amazing", "best", "recommend", "safe"]

/-- Negative word list of the rule-based fallback, shared verbatim by the
same two functions. -/
def negative_words : List String :=
  ["bad", "hate", "avoid", "dangerous", "toxic", "harmful", "worst"]

/-- Boolean test that some word of the list occurs in the text. -/
def containsAnyWord (words : List String) (text : List Char) : Bool :=
  words.any (fun w => substrB w.toList text)

/-- Mirrors analyze_sentiment in misc_py_root/reddit_ingredient_stats.py on
the vader_ready = False path: 1 when a positive-list word occurs in the
lowercased text, otherwise -1 when a negative-list word occurs, otherwise
0. -/
def analyze_sentiment_rule (text : List Char) : ℚ :=
  let t := lowerText text
  if containsAnyWord positive_words t then 1
  else if containsAnyWord negative_words t then -1
  else 0

/-- Result of the VADER-unavailable fallback branch of
analyze_comment_sentiment in misc_py_root/reddit_api_connector.py. -/
structure FallbackSentiment where
  compound : ℚ
  sentiment_category : String
  confidence : ℚ
  weighted_score : ℚ
  fallback_analysis : Bool
deriving DecidableEq

/-- Mirrors the VADER-unavailable fallback of analyze_comment_sentiment
(misc_py_root/reddit_api_connector.py): the positive list is checked first
and yields compound 0.5, confidence 0.5 and weighted score
0.5 * max(score, 1); then the negative list yields the mirrored negative
result; otherwise the neutral result has confidence 0 and weighted score 0.
Every branch sets fallback_analysis to true.  In this branch the code reads
the score with default 1; the embedding passes the score explicitly. -/
def analyze_comment_sentiment_fallback (body : List Char) (score : ℤ) : FallbackSentiment :=
  let text := lowerText body
  if containsAnyWord positive_words text then
    { compound := 1 / 2, sentiment_category := "positive", confidence := 1 / 2
      weighted_score := (1 / 2) * ((max score 1 : ℤ) : ℚ), fallback_analysis := true }
  else if containsAnyWord negative_words text then
    { compound := -(1 / 2), sentiment_category := "negative", confidence := 1 / 2
      weighted_score := -(1 / 2) * ((max score 1 : ℤ) : ℚ), fallback_analysis := true }
  else
    { compound := 0, sentiment_category := "neutral", confidence := 0
      weighted_score := 0, fallback_analysis := true }

/-! ## reddit_ingredient_stats.py / batch_ingredient_stats.py: confidence interval -/

/-- Mirrors statistics.mean guarded by the code (avg_sentiment is 0 when the
list is empty, otherwise the exact mean). -/
def listMean (xs : List ℚ) : ℚ :=
  if xs.isEmpty then 0 else xs.sum / (xs.length : ℚ)

/-- Square of statistics.stdev as guarded by the code: the unbiased sample
variance, sum of squared deviations from the mean divided by n - 1, and 0
when the list has at most one element. -/
def sampleVar (xs : List ℚ) : ℚ :=
  if xs.length ≤ 1 then 0
  else ((xs.map (fun x => (x - listMean xs) ^ 2)).sum) / ((xs.length : ℚ) - 1)

/-- Confidence interval of ingredient_stats, represented exactly.  The code
computes ci95 = 1.96 * stdev / sqrt(n) and returns the interval
[mean - ci95, mean + ci95]; ci95 is in general an irrational square root, so
the embedding carries its exact square: the interval of the code is
[mean - sqrt halfWidthSq, mean + sqrt halfWidthSq], and it collapses to the
point [mean, mean] exactly when halfWidthSq = 0. -/
structure ConfInterval where
  mean : ℚ
  halfWidthSq : ℚ
deriving DecidableEq

/-- Mirrors the sentiment_95ci computation shared by ingredient_stats
(misc_py_root/reddit_ingredient_stats.py) and batch_ingredient_stats
(misc_py_root/batch_ingredient_stats.py): all_sentiments is the
concatenation of the per-post text sentiments and the sampled per-comment
sentiments; when n > 1 the half width is 1.96 * stdev / sqrt(n), whose
square is 1.96 ^ 2 * sampleVar / n, and otherwise the interval is the point
[mean, mean]. -/
def sentiment_95ci (post_sentiments comment_sentiments : List ℚ) : ConfInterval :=
  let all_sentiments := post_sentiments ++ comment_sentiments
  if 1 < all_sentiments.length then
    { mean := listMean all_sentiments
      halfWidthSq := (196 / 100 : ℚ) ^ 2 * sampleVar all_sentiments / (all_sentiments.length : ℚ) }
  else
    { mean := listMean all_sentiments, halfWidthSq := 0 }

/-! ## combine_ingredient_data_to_csv.py: skin/hair classifier -/

/-- Hair care keyword list of classify_skin_hair_usage. -/
def hair_keywords : List String :=
  ["shampoo", "conditioner", "hair", "scalp", "dandruff", "seborrheic",
   "follicle", "growth", "strengthening", "detangling", "volumizing",
   "anti-dandruff", "hair loss", "alopecia", "thinning"]

/-- Skin care keyword list of classify_skin_hair_usage. -/
def skin_keywords : List String :=
  ["moisturizing", "hydrating", "anti-aging", "wrinkle", "acne",
   "comedogenic", "facial", "serum", "cream", "lotion", "cleanser",
   "exfoliat", "brightening", "lightening", "sun protection", "spf",
   "anti-inflammatory", "soothing", "calming", "barrier repair"]

/-- Hair-specific ingredient name list of classify_skin_hair_usage. -/
def hair_specific_ingredients : List String :=
  ["zinc pyrithione", "selenium sulfide", "ketoconazole", "climbazole",
   "piroctone olamine", "cetrimonium", "behentrimonium", "polyquaternium",
   "guar hydroxypropyltrimonium"]

/-- Skin-specific ingredient name list of classify_skin_hair_usage. -/
def skin_specific_ingredients : List String :=
  ["salicylic acid", "glycolic acid", "retinol", "niacinamide",
   "hyaluronic acid", "ascorbic acid", "kojic acid"]

/-- Universal keyword list of classify_skin_hair_usage. -/
def universal_keywords : List String :=
  ["preservative", "emulsifier", "thickener", "stabilizer", "fragrance",
   "colorant", "ph adjuster", "chelating", "antioxidant"]

/-- Mirrors functions_text in classify_skin_hair_usage: the space-join of
the function strings, lowercased, and the empty string for an empty list. -/
def functionsText (functions : List (List Char)) : List Char :=
  if functions.isEmpty then [] else lowerText (joinWithSpace functions)

/-- Hair score of classify_skin_hair_usage: the keyword loop adds 2 per hair
keyword occurring in the functions text and 3 per hair-specific ingredient
name occurring in the lowercased INCI name, so the total is 2 and 3 times
the respective match counts. -/
def hair_score (functions : List (List Char)) (inci_name : List Char) : ℕ :=
  2 * hair_keywords.countP (fun k => substrB k.toList (functionsText functions))
    + 3 * hair_specific_ingredients.countP (fun k => substrB k.toList (lowerText inci_name))

/-- Skin score of classify_skin_hair_usage, built like the hair score from
the skin keyword and skin-specific ingredient lists. -/
def skin_score (functions : List (List Char)) (inci_name : List Char) : ℕ :=
  2 * skin_keywords.countP (fun k => substrB k.toList (functionsText functions))
    + 3 * skin_specific_ingredients.countP (fun k => substrB k.toList (lowerText inci_name))

/-- Universal score of classify_skin_hair_usage: one point per universal
keyword occurring in the functions text. -/
def universal_score (functions : List (List Char)) : ℕ :=
  universal_keywords.countP (fun k => substrB k.toList (functionsText functions))

/-- Mirrors classify_skin_hair_usage (combine_ingredient_data_to_csv.py):
Hair Care when the hair score strictly exceeds the skin score plus 1, else
Skin Care in the symmetric case, else Both when the universal score is at
least 2 or both scores are positive, and otherwise the default branch
(including its dead cleansing-agent test, both arms of which return Both). -/
def classify_skin_hair_usage (functions : List (List Char)) (inci_name : List Char) : String :=
  let hs := hair_score functions inci_name
  let ss := skin_score functions inci_name
  let us := universal_score functions
  if hs > ss + 1 then "Hair Care"
  else if ss > hs + 1 then "Skin Care"
  else if 2 ≤ us ∨ (0 < hs ∧ 0 < ss) then "Both"
  else if containsAnyWord ["sulfate", "glucoside", "betaine"] (lowerText inci_name) then "Both"
  else "Both"

/-! ## unified_ingredient_analysis.py: benefit statement extraction -/

/-- Span of one regex match (start inclusive, stop exclusive) as produced by
re.finditer in extract_benefit_statements.  The Python regex engine is an
external library; the embedding takes the list of match spans, in scan order
over the five patterns, as an oracle input. -/
structure MatchSpan where
  start : ℕ
  stop : ℕ
deriving DecidableEq

/-- Mirrors the context computation of extract_benefit_statements
(unified_ingredient_analysis.py): the slice of the text from
max(0, start - 50) to min(len(text), stop + 50), stripped of surrounding
whitespace.  Natural subtraction realizes the max with 0. -/
def matchContext (text : List Char) (m : MatchSpan) : List Char :=
  let s := m.start - 50
  let e := min text.length (m.stop + 50)
  stripText ((text.drop s).take (e - s))

/-- Mirrors extract_benefit_statements (unified_ingredient_analysis.py)
given the match spans of its five patterns in scan order: each match yields
its stripped context window, a context is appended only when it is nonempty
and longer than 20 characters, and the first 5 appended statements are
returned. -/
def extract_benefit_statements (text : List Char) (spans : List MatchSpan) : List (List Char) :=
  (((spans.map (matchContext text)).filter
      (fun c => !c.isEmpty && decide (20 < c.length))).take 5)

/-! ## Concrete inputs used in counterexamples and witnesses -/

/-- Tombstoned comment; the oracle compound is irrelevant because the code
never consults VADER for a tombstone. -/
def tombComment : CommentData := { body := "[deleted]".toList, score := 5, compound := 0 }

/-- Ordinary comment whose VADER compound is 0.8, score 1. -/
def posComment : CommentData := { body := "great product".toList, score := 1, compound := 4 / 5 }

/-- Highly upvoted comment whose VADER compound is 0.8, score 10. -/
def bigComment : CommentData :=
  { body := "great product for hair growth".toList, score := 10, compound := 4 / 5 }

/-- Strongly positive, highly upvoted comment (VADER compound 0.9, score 100). -/
def strongPosComment : CommentData :=
  { body := "love this product so much".toList, score := 100, compound := 9 / 10 }

/-- Mildly negative comment (VADER compound -0.06, score 1). -/
def mildNegComment (body : List Char) : CommentData :=
  { body := body, score := 1, compound := -(6 / 100) }

/-- Five-comment list whose category distribution has a negative majority
while the weighted average compound is far above the positive threshold. -/
def majorityCexList : List CommentData :=
  [strongPosComment, mildNegComment "meh one".toList, mildNegComment "meh two".toList,
   mildNegComment "meh three".toList, mildNegComment "meh four".toList]

/-- Kept (kind t1, nonempty body and author) ordinary comment child. -/
def validChild (b : String) : RawChild :=
  { kind := "t1", body := b.toList, author := "user".toList, score := 1 }

/-- Kept tombstoned comment child, as Reddit serves deleted comments. -/
def tombChild : RawChild :=
  { kind := "t1", body := "[deleted]".toList, author := "[deleted]".toList, score := 1 }

/-- Four valid comments plus one tombstoned comment. -/
def c4Children : List RawChild :=
  [validChild "nice", validChild "cool", validChild "wow", validChild "ok", tombChild]

/-- Five valid comments, none tombstoned. -/
def c4AllValid : List RawChild :=
  [validChild "one", validChild "two", validChild "three", validChild "four", validChild "five"]

/-- Significant post whose stored post sentiment is positive. -/
def posPostRec : PostRecord :=
  { is_significant_for_sentiment := true
    post_sentiment := some
      { overall_sentiment := "positive", sentiment_distribution := ⟨3, 1, 1⟩
        weighted_average_compound := 1 / 2, sentiment_confidence := 1 / 2
        total_comments_analyzed := 5 } }

/-- Significant post whose stored post sentiment is negative. -/
def negPostRec : PostRecord :=
  { is_significant_for_sentiment := true
    post_sentiment := some
      { overall_sentiment := "negative", sentiment_distribution := ⟨1, 3, 1⟩
        weighted_average_compound := -(1 / 2), sentiment_confidence := 1 / 2
        total_comments_analyzed := 5 } }

/-- Short text for the benefit extraction: on its lowercase form (itself),
with the default ingredient, pattern 4 of the positive benefit patterns,
(?:love|recommend|best).*ingredient, produces the single match with span
(0, 15) covering the whole 15-character text, and the other four patterns
produce no match; so the oracle span list for this text is [(0, 15)]. -/
def shortBenefitText : List Char := "love ingredient".toList

/-- Longer text for the benefit extraction: on its lowercase form (itself),
with the default ingredient, pattern 3 of the positive benefit patterns,
ingredient.*(?:results|progress|difference|improvement), produces the single
match with span (0, 18) (the leftmost match starts at 0 and the greedy dot
backtracks to the only occurrence of results, which ends at 18), and the
other four patterns produce no match; so the oracle span list is
[(0, 18)]. -/
def longBenefitText : List Char := "ingredient results came quickly for me this month".toList

/-! ## Claim theorems -/

/-- C10: the post-level aggregate is not clamped to the compound range: for
the single comment with compound 0.8 and upvote score 10,
aggregate_post_sentiment returns weighted_average_compound 8 > 1, hence
sentiment_confidence = |weighted_average_compound| = 8 > 1, even though the
per-comment compound lies in [-1, 1] and the per-comment confidence lies in
[0, 1]. -/
theorem claim_C10 :
    (aggregate_post_sentiment [bigComment]).weighted_average_compound = 8 ∧
    1 < (aggregate_post_sentiment [bigComment]).weighted_average_compound ∧
    (aggregate_post_sentiment [bigComment]).sentiment_confidence =
      |(aggregate_post_sentiment [bigComment]).weighted_average_compound| ∧
    1 < (aggregate_post_sentiment [bigComment]).sentiment_confidence ∧
    -1 ≤ bigComment.compound ∧ bigComment.compound ≤ 1 ∧
    0 ≤ (analyze_comment_sentiment bigComment).confidence ∧
    (analyze_comment_sentiment bigComment).confidence ≤ 1 := by
  refine ⟨?_, ?_, ?_, ?_, ?_, ?_, ?_, ?_⟩ <;>
    simp +decide [aggregate_post_sentiment, analyze_comment_sentiment, bigComment,
      tombstoneBody, sentimentCategory] <;> norm_num [abs_le]

/-- C5 counterexample: the min_sample_size computed by
k18_hair_mask_extractor.py truncates with int() instead of taking the
ceiling, so it equals 384, not the 385 the claim states. -/
theorem claim_C5_cex : min_sample_size_k18 = 384 ∧ min_sample_size_k18 ≠ 385 := by
  have h : min_sample_size_k18 = 384 := by
    unfold min_sample_size_k18
    rw [Int.floor_eq_iff]
    constructor <;> norm_num
  exact ⟨h, by rw [h]; decide⟩

/-- C5 amended: the reddit_api_connector.py main computes
ceil(Z^2 p (1-p) / e^2) with Z = 1.96, p = 0.5, e = 0.05, which is exactly
385; the k18_hair_mask_extractor.py main computes the same quantity but
truncates it with int(), which yields 384. -/
theorem claim_C5 : min_sample_size_connector = 385 ∧ min_sample_size_k18 = 384 := by
  constructor
  · unfold min_sample_size_connector
    rw [Int.ceil_eq_iff]
    constructor <;> norm_num
  · unfold min_sample_size_k18
    rw [Int.floor_eq_iff]
    constructor <;> norm_num

/-- C7 counterexample: when the analyzer is unavailable and the text matches
neither word list, the fallback result carries the fallback_analysis marker
but its confidence is 0, not the fixed constant 0.5 the claim states. -/
theorem claim_C7_cex :
    (analyze_comment_sentiment_fallback "meh".toList 3).fallback_analysis = true ∧
    (analyze_comment_sentiment_fallback "meh".toList 3).confidence = 0 ∧
    (analyze_comment_sentiment_fallback "meh".toList 3).confidence ≠ 1 / 2 := by
  refine ⟨?_, ?_, ?_⟩ <;>
    simp +decide [analyze_comment_sentiment_fallback, containsAnyWord, positive_words,
      negative_words, lowerText, substrB, startsWithB]

/-- C7 amended: the fallback scorer is total, every result carries
fallback_analysis = true, the positive list is checked first and wins (a
text matching it is classified positive with confidence 0.5 regardless of
the negative list), a text matching only the negative list is classified
negative with confidence 0.5, and a text matching neither list is
classified neutral with confidence 0 rather than 0.5. -/
theorem claim_C7 (body : List Char) (score : ℤ) :
    (analyze_comment_sentiment_fallback body score).fallback_analysis = true ∧
    (containsAnyWord positive_words (lowerText body) = true →
      (analyze_comment_sentiment_fallback body score).sentiment_category = "positive" ∧
      (analyze_comment_sentiment_fallback body score).confidence = 1 / 2) ∧
    (containsAnyWord positive_words (lowerText body) = false →
      containsAnyWord negative_words (lowerText body) = true →
      (analyze_comment_sentiment_fallback body score).sentiment_category = "negative" ∧
      (analyze_comment_sentiment_fallback body score).confidence = 1 / 2) ∧
    (containsAnyWord positive_words (lowerText body) = false →
      containsAnyWord negative_words (lowerText body) = false →
      (analyze_comment_sentiment_fallback body score).sentiment_category = "neutral" ∧
      (analyze_comment_sentiment_fallback body score).confidence = 0) := by
  unfold analyze_comment_sentiment_fallback
  by_cases hp : containsAnyWord positive_words (lowerText body) = true
  · refine ⟨by simp [hp], fun _ => ⟨by simp [hp], by simp [hp]⟩, ?_, ?_⟩
    · intro h; rw [hp] at h; exact absurd h (by simp)
    · intro h; rw [hp] at h; exact absurd h (by simp)
  · have hp' : containsAnyWord positive_words (lowerText body) = false := by
      simpa using hp
    by_cases hn : containsAnyWord negative_words (lowerText body) = true
    · refine ⟨by simp [hp', hn], fun h => absurd h (by simp [hp']), ?_, ?_⟩
      · intro _ _; exact ⟨by simp [hp', hn], by simp [hp', hn]⟩
      · intro _ h; rw [hn] at h; exact absurd h (by simp)
    · have hn' : containsAnyWord negative_words (lowerText body) = false := by
        simpa using hn
      refine ⟨by simp [hp', hn'], fun h => absurd h (by simp [hp']), ?_, ?_⟩
      · intro _ h; exact absurd h (by simp [hn'])
      · intro _ _; exact ⟨by simp [hp', hn'], by simp [hp', hn']⟩

/-- C7 witness: a text containing both the positive-list word love and the
negative-list word hate is classified positive with confidence 0.5. -/
theorem claim_C7_witness :
    (analyze_comment_sentiment_fallback "love it but i hate it".toList 2).sentiment_category =
      "positive" ∧
    (analyze_comment_sentiment_fallback "love it but i hate it".toList 2).confidence = 1 / 2 :=
  (claim_C7 "love it but i hate it".toList 2).2.1 (by decide)

/-! ## Shared helper lemmas -/

/-- Evaluation of analyze_comment_sentiment on a valid (nonempty,
non-tombstoned) body. -/
theorem analyze_valid (c : CommentData) (h : (c.body.isEmpty || tombstoneBody c.body) = false) :
    analyze_comment_sentiment c =
      { compound := c.compound
        sentiment_category := sentimentCategory c.compound
        confidence := |c.compound|
        weighted_score := c.compound * ((max c.score 1 : ℤ) : ℚ) } := by
  unfold analyze_comment_sentiment
  rw [h]
  rfl

/-- Evaluation of analyze_comment_sentiment on a tombstoned body. -/
theorem analyze_tombstone (c : CommentData) (h : tombstoneBody c.body = true) :
    analyze_comment_sentiment c =
      { compound := 0, sentiment_category := "neutral", confidence := 0, weighted_score := 0 } := by
  unfold analyze_comment_sentiment
  rw [h]
  simp

/-- Evaluation of aggregate_post_sentiment on a nonempty comment list. -/
theorem aggregate_nonempty (comments : List CommentData) (h : comments ≠ []) :
    aggregate_post_sentiment comments =
      { overall_sentiment :=
          sentimentCategory
            (((comments.map analyze_comment_sentiment).map (fun s => s.weighted_score)).sum /
              (comments.length : ℚ))
        sentiment_distribution :=
          ⟨((comments.map analyze_comment_sentiment).map (fun s => s.sentiment_category)).count
              "positive",
            ((comments.map analyze_comment_sentiment).map (fun s => s.sentiment_category)).count
              "negative",
            ((comments.map analyze_comment_sentiment).map (fun s => s.sentiment_category)).count
              "neutral"⟩
        weighted_average_compound :=
          ((comments.map analyze_comment_sentiment).map (fun s => s.weighted_score)).sum /
            (comments.length : ℚ)
        sentiment_confidence :=
          |((comments.map analyze_comment_sentiment).map (fun s => s.weighted_score)).sum /
            (comments.length : ℚ)|
        total_comments_analyzed := comments.length } := by
  unfold aggregate_post_sentiment
  rw [if_neg (by simp [h])]
  simp [List.length_map]

/-- Evaluation of analyze_comment_sentiment on the concrete comment
posComment. -/
theorem analyze_posComment :
    analyze_comment_sentiment posComment =
      { compound := 4 / 5, sentiment_category := "positive", confidence := 4 / 5
        weighted_score := 4 / 5 } := by
  rw [analyze_valid posComment (by decide)]
  norm_num [posComment, sentimentCategory, CommentSentiment.mk.injEq, abs_of_nonneg, max_def]

/-- C2 counterexample: in a post whose comments are one tombstoned comment
and one ordinary comment with compound 0.8 and score 1, the tombstone is
counted in sentiment_distribution (neutral becomes 1 instead of 0) and
enters the denominator of weighted_average_compound (0.4 instead of
0.8). -/
theorem claim_C2_cex :
    (aggregate_post_sentiment [tombComment, posComment]).sentiment_distribution.neutral = 1 ∧
    (aggregate_post_sentiment [posComment]).sentiment_distribution.neutral = 0 ∧
    (aggregate_post_sentiment [tombComment, posComment]).weighted_average_compound = 2 / 5 ∧
    (aggregate_post_sentiment [posComment]).weighted_average_compound = 4 / 5 := by
  have ht : analyze_comment_sentiment tombComment =
      { compound := 0, sentiment_category := "neutral", confidence := 0, weighted_score := 0 } :=
    analyze_tombstone tombComment (by decide)
  refine ⟨?_, ?_, ?_, ?_⟩
  · rw [aggregate_nonempty [tombComment, posComment] (by simp)]
    simp +decide [ht, analyze_posComment]
  · rw [aggregate_nonempty [posComment] (by simp)]
    simp +decide [analyze_posComment]
  · rw [aggregate_nonempty [tombComment, posComment] (by simp)]
    simp [ht, analyze_posComment]
    norm_num
  · rw [aggregate_nonempty [posComment] (by simp)]
    simp [analyze_posComment]

/-- C2 amended: a tombstoned comment is not excluded by
aggregate_post_sentiment; it is scored as the fixed neutral result with
weighted score 0, so it is counted in the neutral entry of
sentiment_distribution and enters the denominator of
weighted_average_compound, while adding 0 to the numerator. -/
theorem claim_C2 (c : CommentData) (rest : List CommentData) (h : tombstoneBody c.body = true) :
    (analyze_comment_sentiment c).sentiment_category = "neutral" ∧
    (analyze_comment_sentiment c).weighted_score = 0 ∧
    (aggregate_post_sentiment (c :: rest)).sentiment_distribution.neutral =
      ((rest.map analyze_comment_sentiment).map (fun s => s.sentiment_category)).count "neutral"
        + 1 ∧
    (aggregate_post_sentiment (c :: rest)).weighted_average_compound =
      ((rest.map analyze_comment_sentiment).map (fun s => s.weighted_score)).sum /
        ((rest.length : ℚ) + 1) := by
  have hc := analyze_tombstone c h
  refine ⟨by rw [hc], by rw [hc], ?_, ?_⟩
  · rw [aggregate_nonempty (c :: rest) (by simp)]
    simp [hc]
  · rw [aggregate_nonempty (c :: rest) (by simp)]
    simp [hc]

/-- C2 witness: the amended statement evaluated at the tombstoned comment
followed by one ordinary comment. -/
theorem claim_C2_witness :
    (analyze_comment_sentiment tombComment).sentiment_category = "neutral" ∧
    (analyze_comment_sentiment tombComment).weighted_score = 0 ∧
    (aggregate_post_sentiment (tombComment :: [posComment])).sentiment_distribution.neutral =
      (([posComment].map analyze_comment_sentiment).map
          (fun s => s.sentiment_category)).count "neutral" + 1 ∧
    (aggregate_post_sentiment (tombComment :: [posComment])).weighted_average_compound =
      (([posComment].map analyze_comment_sentiment).map (fun s => s.weighted_score)).sum /
        ((([posComment] : List CommentData).length : ℚ) + 1) :=
  claim_C2 tombComment [posComment] (by decide)

/-- Evaluation of analyze_comment_sentiment on strongPosComment. -/
theorem analyze_strongPos :
    analyze_comment_sentiment strongPosComment =
      { compound := 9 / 10, sentiment_category := "positive", confidence := 9 / 10
        weighted_score := 90 } := by
  rw [analyze_valid strongPosComment (by decide)]
  norm_num [strongPosComment, sentimentCategory, CommentSentiment.mk.injEq, abs_of_nonneg,
    max_def]

/-- Evaluation of analyze_comment_sentiment on a mildly negative comment
with a valid body. -/
theorem analyze_mildNeg (body : List Char)
    (h : (body.isEmpty || tombstoneBody body) = false) :
    analyze_comment_sentiment (mildNegComment body) =
      { compound := -(6 / 100), sentiment_category := "negative", confidence := 6 / 100
        weighted_score := -(6 / 100) } := by
  rw [analyze_valid (mildNegComment body) (by simpa [mildNegComment] using h)]
  norm_num [mildNegComment, sentimentCategory, CommentSentiment.mk.injEq, abs_of_nonpos,
    max_def]

/-- C3: on a significant (at least 5 comments) analyzed comment list, every
valid comment contributes weighted_score = compound * max(score, 1), the
weighted average compound is the mean of the weighted scores, and the
overall sentiment applies the 0.05 thresholds to that aggregate; moreover
on the concrete list majorityCexList the category distribution has a
negative majority while the overall sentiment is positive, so the overall
sentiment is not a majority vote of the per-comment categories. -/
theorem claim_C3 (comments : List CommentData) (hsig : 5 ≤ comments.length) :
    (∀ c ∈ comments, (c.body.isEmpty || tombstoneBody c.body) = false →
      (analyze_comment_sentiment c).weighted_score =
        c.compound * ((max c.score 1 : ℤ) : ℚ)) ∧
    (aggregate_post_sentiment comments).weighted_average_compound =
      ((comments.map analyze_comment_sentiment).map (fun s => s.weighted_score)).sum /
        (comments.length : ℚ) ∧
    (aggregate_post_sentiment comments).overall_sentiment =
      (if (aggregate_post_sentiment comments).weighted_average_compound ≥ 5 / 100 then "positive"
       else if (aggregate_post_sentiment comments).weighted_average_compound ≤ -(5 / 100) then
         "negative"
       else "neutral") ∧
    ((aggregate_post_sentiment majorityCexList).sentiment_distribution.positive <
        (aggregate_post_sentiment majorityCexList).sentiment_distribution.negative ∧
      (aggregate_post_sentiment majorityCexList).overall_sentiment = "positive") := by
  have hne : comments ≠ [] := by
    intro hnil
    rw [hnil] at hsig
    simp at hsig
  have hagg := aggregate_nonempty comments hne
  have hmaj := aggregate_nonempty majorityCexList (by simp [majorityCexList])
  have hm1 := analyze_mildNeg "meh one".toList (by decide)
  have hm2 := analyze_mildNeg "meh two".toList (by decide)
  have hm3 := analyze_mildNeg "meh three".toList (by decide)
  have hm4 := analyze_mildNeg "meh four".toList (by decide)
  refine ⟨?_, ?_, ?_, ?_, ?_⟩
  · intro c _ hval
    rw [analyze_valid c hval]
  · rw [hagg]
  · rw [hagg]
    rfl
  · rw [hmaj]
    simp only [majorityCexList, List.map_cons, List.map_nil, analyze_strongPos, hm1, hm2, hm3,
      hm4]
    decide
  · rw [hmaj]
    simp only [majorityCexList, List.map_cons, List.map_nil, analyze_strongPos, hm1, hm2, hm3,
      hm4, List.sum_cons, List.sum_nil, List.length_cons, List.length_nil]
    unfold sentimentCategory
    rw [if_pos (by norm_num)]

/-- C3 witness: the mean-of-weighted-scores equality evaluated at the
concrete five-comment list majorityCexList. -/
theorem claim_C3_witness :
    (aggregate_post_sentiment majorityCexList).weighted_average_compound =
      ((majorityCexList.map analyze_comment_sentiment).map (fun s => s.weighted_score)).sum /
        (majorityCexList.length : ℚ) :=
  (claim_C3 majorityCexList (by decide)).2.1

/-- C1 counterexample: two significant posts, one overall positive and one
overall negative, are a positive/negative tie; the claim says positive wins
such a tie, but the code returns neutral. -/
theorem claim_C1_cex :
    (calculate_overall_ingredient_sentiment [posPostRec, negPostRec]).sentiment_distribution =
      ⟨1, 1, 0⟩ ∧
    (calculate_overall_ingredient_sentiment [posPostRec, negPostRec]).overall_sentiment =
      "neutral" := by
  constructor <;> decide

/-- C1 amended: the ingredient-level overall_sentiment compares only the
positive and negative counts of the significant posts (the neutral count is
ignored, so it is not a plurality): positive when the positive count
strictly exceeds the negative count, negative in the symmetric case, and
neutral otherwise, so every tie, including a positive/negative tie,
resolves to neutral. -/
theorem claim_C1 (all_posts : List PostRecord) :
    (calculate_overall_ingredient_sentiment all_posts).overall_sentiment =
      (if (((all_posts.filter (fun p => p.is_significant_for_sentiment)).filterMap
              (fun p => p.post_sentiment)).map (fun ps => ps.overall_sentiment)).count "positive" >
          (((all_posts.filter (fun p => p.is_significant_for_sentiment)).filterMap
              (fun p => p.post_sentiment)).map (fun ps => ps.overall_sentiment)).count "negative"
       then "positive"
       else if (((all_posts.filter (fun p => p.is_significant_for_sentiment)).filterMap
              (fun p => p.post_sentiment)).map (fun ps => ps.overall_sentiment)).count "negative" >
          (((all_posts.filter (fun p => p.is_significant_for_sentiment)).filterMap
              (fun p => p.post_sentiment)).map (fun ps => ps.overall_sentiment)).count "positive"
       then "negative"
       else "neutral") := by
  unfold calculate_overall_ingredient_sentiment
  by_cases hE : all_posts = []
  · subst hE
    simp
  · rw [if_neg (by simp [hE])]
    by_cases hP : (all_posts.filter (fun p => p.is_significant_for_sentiment)).filterMap
        (fun p => p.post_sentiment) = []
    · rw [if_pos (by simp [hP])]
      rw [hP]
      simp
    · rw [if_neg (by simp [hP])]

/-- C4 counterexample: a post whose fetched comments are four valid comments
plus one tombstoned comment has is_significant = true although its count of
non-tombstoned comments is 4, refuting the claimed iff (and its boundary
case of exactly 4 valid comments). -/
theorem claim_C4_cex :
    is_significant c4Children = true ∧ specValidCommentCount c4Children = 4 := by
  constructor <;> decide

/-- C4 amended: is_significant thresholds at 5 the count of fetched comments
with kind t1, nonempty body and nonempty author, a count that includes
tombstoned comments; the count of non-tombstoned comments never exceeds it,
and the claimed iff holds exactly when no fetched comment is tombstoned. -/
theorem claim_C4 (children : List RawChild) :
    (is_significant children = true ↔
      5 ≤ children.countP (fun c => c.kind == "t1" && !c.body.isEmpty && !c.author.isEmpty)) ∧
    specValidCommentCount children ≤ (fetched_comment_list children).length ∧
    ((∀ c ∈ fetched_comment_list children, tombstoneBody c.body = false) →
      (is_significant children = true ↔ 5 ≤ specValidCommentCount children)) := by
  refine ⟨?_, ?_, ?_⟩
  · unfold is_significant fetched_comment_list
    rw [List.countP_eq_length_filter]
    exact decide_eq_true_iff
  · unfold specValidCommentCount
    exact List.length_filter_le _ _
  · intro h
    have hfix : (fetched_comment_list children).filter (fun c => !tombstoneBody c.body) =
        fetched_comment_list children := by
      rw [List.filter_eq_self]
      intro c hc
      rw [h c hc]
      rfl
    unfold specValidCommentCount
    rw [hfix]
    unfold is_significant
    exact decide_eq_true_iff

/-- C4 witness: the restored iff evaluated on five valid, non-tombstoned
comments. -/
theorem claim_C4_witness :
    is_significant c4AllValid = true ↔ 5 ≤ specValidCommentCount c4AllValid :=
  (claim_C4 c4AllValid).2.2 (by decide)

/-- C6 counterexample: a single-post ingredient whose CI inputs also include
two sampled comment sentiments (post text containing good, comments bad and
love) has n = 3 and a strictly positive squared half width 9604/5625, so
the interval [mean - w, mean + w] with w = sqrt(9604/5625) > 0 does not
collapse to [mean, mean], refuting the claimed single-post degeneracy. -/
theorem claim_C6_cex :
    ([analyze_sentiment_rule "good stuff".toList] : List ℚ).length = 1 ∧
    (sentiment_95ci [analyze_sentiment_rule "good stuff".toList]
        [analyze_sentiment_rule "bad".toList,
         analyze_sentiment_rule "love it".toList]).halfWidthSq = 9604 / 5625 ∧
    (9604 / 5625 : ℚ) ≠ 0 := by
  have h1 : analyze_sentiment_rule "good stuff".toList = 1 := by
    unfold analyze_sentiment_rule
    rw [if_pos (by decide)]
  have h2 : analyze_sentiment_rule "bad".toList = -1 := by
    unfold analyze_sentiment_rule
    rw [if_neg (by decide), if_pos (by decide)]
  have h3 : analyze_sentiment_rule "love it".toList = 1 := by
    unfold analyze_sentiment_rule
    rw [if_pos (by decide)]
  refine ⟨rfl, ?_, by norm_num⟩
  rw [h1, h2, h3]
  unfold sentiment_95ci
  rw [if_pos (by decide)]
  simp [sampleVar, listMean]
  norm_num

/-- C6 amended: the interval of ingredient_stats and batch_ingredient_stats
has the claimed shape [mean - 1.96 sigma / sqrt n, mean + 1.96 sigma / sqrt n]
with sigma the unbiased sample standard deviation, and collapses to
[mean, mean] iff n <= 1 or the sample variance is zero; but it ranges over
the concatenation of the per-post text sentiments and the sampled
per-comment sentiments, not over per-post weighted_average_compound values,
so a single-post ingredient with sampled comments need not collapse. -/
theorem claim_C6 (postS commentS : List ℚ) :
    (sentiment_95ci postS commentS).mean = listMean (postS ++ commentS) ∧
    ((postS ++ commentS).length ≤ 1 → sentiment_95ci postS commentS =
      { mean := listMean (postS ++ commentS), halfWidthSq := 0 }) ∧
    (1 < (postS ++ commentS).length →
      (sentiment_95ci postS commentS).halfWidthSq =
        (196 / 100 : ℚ) ^ 2 * sampleVar (postS ++ commentS) / ((postS ++ commentS).length : ℚ)) ∧
    ((sentiment_95ci postS commentS).halfWidthSq = 0 ↔
      (postS ++ commentS).length ≤ 1 ∨ sampleVar (postS ++ commentS) = 0) := by
  unfold sentiment_95ci
  by_cases h : 1 < (postS ++ commentS).length
  · rw [if_pos h]
    refine ⟨rfl, fun hle => absurd h (by omega), fun _ => rfl, ?_⟩
    have hn : ((postS ++ commentS).length : ℚ) ≠ 0 := by
      have hpos : 0 < (postS ++ commentS).length := by omega
      exact_mod_cast hpos.ne'
    constructor
    · intro h0
      rcases div_eq_zero_iff.mp h0 with h1 | h1
      · rcases mul_eq_zero.mp h1 with h2 | h2
        · exact absurd h2 (by norm_num)
        · exact Or.inr h2
      · exact absurd h1 hn
    · rintro (h1 | h1)
      · exact absurd h1 (by omega)
      · rw [h1]
        ring
  · rw [if_neg h]
    refine ⟨rfl, fun _ => rfl, fun hlt => absurd hlt h, ?_⟩
    constructor
    · intro _
      exact Or.inl (by omega)
    · intro _
      rfl

/-- C6 witness: the degenerate branch evaluated at a single sentiment and no
sampled comments. -/
theorem claim_C6_witness :
    sentiment_95ci [1] [] = { mean := listMean ([1] ++ []), halfWidthSq := 0 } :=
  (claim_C6 [1] []).2.1 (by decide)

/-- Collapse of the final branches of classify_skin_hair_usage: the two arms
of its default branch both return Both, so the function is the three-way
conditional on the scores. -/
theorem classify_collapse (functions : List (List Char)) (inci_name : List Char) :
    classify_skin_hair_usage functions inci_name =
      (if hair_score functions inci_name > skin_score functions inci_name + 1 then "Hair Care"
       else if skin_score functions inci_name > hair_score functions inci_name + 1 then
         "Skin Care"
       else "Both") := by
  unfold classify_skin_hair_usage
  dsimp only
  split_ifs <;> rfl

/-- C8: the skin/hair classifier returns Hair Care when the hair score
strictly exceeds the skin score plus 1, else Skin Care in the symmetric
case, else Both when the universal tally is at least 2 or both scores are
positive; with no matching keywords in either category and a zero universal
tally it defaults to Both; and it always returns one of the three category
strings, never an unset value. -/
theorem claim_C8 (functions : List (List Char)) (inci_name : List Char) :
    (hair_score functions inci_name > skin_score functions inci_name + 1 →
      classify_skin_hair_usage functions inci_name = "Hair Care") ∧
    (¬(hair_score functions inci_name > skin_score functions inci_name + 1) →
      skin_score functions inci_name > hair_score functions inci_name + 1 →
      classify_skin_hair_usage functions inci_name = "Skin Care") ∧
    (¬(hair_score functions inci_name > skin_score functions inci_name + 1) →
      ¬(skin_score functions inci_name > hair_score functions inci_name + 1) →
      (2 ≤ universal_score functions ∨
        (0 < hair_score functions inci_name ∧ 0 < skin_score functions inci_name)) →
      classify_skin_hair_usage functions inci_name = "Both") ∧
    (hair_score functions inci_name = 0 ∧ skin_score functions inci_name = 0 ∧
        universal_score functions = 0 →
      classify_skin_hair_usage functions inci_name = "Both") ∧
    (classify_skin_hair_usage functions inci_name = "Hair Care" ∨
      classify_skin_hair_usage functions inci_name = "Skin Care" ∨
      classify_skin_hair_usage functions inci_name = "Both") := by
  refine ⟨?_, ?_, ?_, ?_, ?_⟩
  · intro h
    rw [classify_collapse, if_pos h]
  · intro h1 h2
    rw [classify_collapse, if_neg h1, if_pos h2]
  · intro h1 h2 _
    rw [classify_collapse, if_neg h1, if_neg h2]
  · rintro ⟨ha, hb, _⟩
    rw [classify_collapse, if_neg (by omega), if_neg (by omega)]
  · rw [classify_collapse]
    split_ifs
    · exact Or.inl rfl
    · exact Or.inr (Or.inl rfl)
    · exact Or.inr (Or.inr rfl)

/-- C8 witness: a lone shampoo function classifies as Hair Care through the
first branch (hair score 2, skin score 0). -/
theorem claim_C8_witness :
    classify_skin_hair_usage ["shampoo".toList] "water".toList = "Hair Care" :=
  (claim_C8 ["shampoo".toList] "water".toList).1 (by decide)

/-- C9 counterexample: on the text love ingredient, whose only regex match
spans the whole 15-character text, the claim predicts that the match window
(the whole text) is returned as a statement, but the code returns no
statements because the stripped context of length 15 fails the length > 20
filter. -/
theorem claim_C9_cex :
    extract_benefit_statements shortBenefitText [⟨0, 15⟩] = [] ∧
    matchContext shortBenefitText ⟨0, 15⟩ = shortBenefitText ∧
    shortBenefitText.length = 15 := by
  refine ⟨?_, ?_, ?_⟩ <;> decide

/-- C9 amended: the extraction returns at most 5 statements; the returned
list is a subsequence of the stripped plus or minus 50 character windows of
the matches in scan order (not a ranking); and every returned statement is
the stripped window of some match and is longer than 20 characters, matches
with shorter stripped windows being silently skipped. -/
theorem claim_C9 (text : List Char) (spans : List MatchSpan) :
    (extract_benefit_statements text spans).length ≤ 5 ∧
    (extract_benefit_statements text spans).Sublist (spans.map (matchContext text)) ∧
    ∀ s ∈ extract_benefit_statements text spans,
      20 < s.length ∧ ∃ m ∈ spans, s = matchContext text m := by
  refine ⟨?_, ?_, ?_⟩
  · unfold extract_benefit_statements
    exact List.length_take_le 5 _
  · unfold extract_benefit_statements
    exact (List.take_sublist _ _).trans (List.filter_sublist _)
  · intro s hs
    unfold extract_benefit_statements at hs
    have hs1 := List.mem_of_mem_take hs
    rw [List.mem_filter] at hs1
    obtain ⟨hmem, hpred⟩ := hs1
    refine ⟨?_, ?_⟩
    · simp only [Bool.and_eq_true, decide_eq_true_eq] at hpred
      exact hpred.2
    · obtain ⟨m, hm, heq⟩ := List.mem_map.mp hmem
      exact ⟨m, hm, heq.symm⟩

/-- C9 witness: on the longer text, the single match produces one returned
statement that is longer than 20 characters. -/
theorem claim_C9_witness :
    20 < (matchContext longBenefitText ⟨0, 18⟩).length :=
  ((claim_C9 longBenefitText [⟨0, 18⟩]).2.2 (matchContext longBenefitText ⟨0, 18⟩)
    (by decide)).1
